import Mathlib

/-!
Verification of the Strimzi canary producer service
(`internal/services/producer.go`).

The Go code is shallowly embedded: the `ProducerService` struct becomes a
Lean structure, the three Prometheus instruments become finitely updated
functions from label pairs to counter values / sample lists, and the
external collaborators (the Sarama sync producer, the Sarama client and the
wall clock) become an explicit environment `Env` that fixes, for every loop
iteration, the creation-time reading, the acknowledgement-time reading and
the outcome of the synchronous send.  Go `int` values are modelled as
unbounded integers (`Int`/`Nat`); no claim under consideration concerns
64-bit overflow.  `time.Now().UnixNano() / 1000000` is an external clock
reading, so the environment supplies the already-divided millisecond value
directly; the division constrains nothing, as every millisecond value is
realisable.  The histogram's `Observe(float64(duration))` is modelled as
recording the integer `duration` itself: the `float64` conversion is exact
for every realistic magnitude and the bucket boundaries (configuration)
play no role in any property considered here.

Metric labels use `strconv.Itoa(i)` for the partition label, embedded as
`toString i` on `Nat`; the development therefore begins by proving that
decimal rendering of naturals (`Nat.repr`) is injective.
-/

namespace Canary

/-! ### Injectivity of decimal rendering (`strconv.Itoa` / `Nat.repr`) -/

/-- Decimal digits of `n`, most significant first, by structural division;
used as a fuel-free reference implementation of `Nat.toDigits 10`. -/
def natDigits (n : Nat) : List Char :=
  if n < 10 then [Nat.digitChar n]
  else natDigits (n / 10) ++ [Nat.digitChar (n % 10)]
  termination_by n
  decreasing_by exact Nat.div_lt_self (by omega) (by omega)

theorem natDigits_lt {n : Nat} (h : n < 10) :
    natDigits n = [Nat.digitChar n] := by
  rw [natDigits, if_pos h]

theorem natDigits_ge {n : Nat} (h : ¬ n < 10) :
    natDigits n = natDigits (n / 10) ++ [Nat.digitChar (n % 10)] := by
  rw [natDigits, if_neg h]

theorem natDigits_ne_nil (n : Nat) : natDigits n ≠ [] := by
  by_cases h : n < 10
  · rw [natDigits_lt h]; simp
  · rw [natDigits_ge h]; simp

theorem digitChar_inj_lt : ∀ a < 10, ∀ b < 10,
    Nat.digitChar a = Nat.digitChar b → a = b := by decide

theorem natDigits_inj : ∀ m n : Nat, natDigits m = natDigits n → m = n := by
  intro m
  induction m using Nat.strong_induction_on with
  | _ m ih =>
    intro n h
    by_cases hm : m < 10 <;> by_cases hn : n < 10
    · rw [natDigits_lt hm, natDigits_lt hn] at h
      exact digitChar_inj_lt m hm n hn (List.singleton_injective h)
    · rw [natDigits_lt hm, natDigits_ge hn] at h
      have hlen := congrArg List.length h
      simp only [List.length_append, List.length_singleton] at hlen
      have h0 : (natDigits (n / 10)).length = 0 := by omega
      exact absurd (List.length_eq_zero.mp h0) (natDigits_ne_nil _)
    · rw [natDigits_ge hm, natDigits_lt hn] at h
      have hlen := congrArg List.length h
      simp only [List.length_append, List.length_singleton] at hlen
      have h0 : (natDigits (m / 10)).length = 0 := by omega
      exact absurd (List.length_eq_zero.mp h0) (natDigits_ne_nil _)
    · rw [natDigits_ge hm, natDigits_ge hn] at h
      have hlen : ([Nat.digitChar (m % 10)] : List Char).length
          = ([Nat.digitChar (n % 10)] : List Char).length := rfl
      obtain ⟨h1, h2⟩ := List.append_inj' h hlen
      have hdiv : m / 10 = n / 10 :=
        ih (m / 10) (Nat.div_lt_self (by omega) (by omega)) (n / 10) h1
      have hmod : m % 10 = n % 10 :=
        digitChar_inj_lt (m % 10) (Nat.mod_lt _ (by omega))
          (n % 10) (Nat.mod_lt _ (by omega)) (List.singleton_injective h2)
      omega

theorem toDigitsCore_eq_natDigits :
    ∀ (f n : Nat) (l : List Char), n < f →
      Nat.toDigitsCore 10 f n l = natDigits n ++ l := by
  intro f
  induction f with
  | zero => intro n l h; omega
  | succ f ih =>
    intro n l h
    by_cases h10 : n < 10
    · have hz : n / 10 = 0 := by omega
      simp only [Nat.toDigitsCore, hz, if_pos rfl]
      rw [natDigits, if_pos h10]
      have : n % 10 = n := by omega
      rw [this]
      rfl
    · have hz : ¬ n / 10 = 0 := by omega
      simp only [Nat.toDigitsCore, if_neg hz]
      rw [ih (n / 10) _ (by omega), natDigits_ge h10, List.append_assoc]
      rfl

theorem repr_nat_inj : ∀ m n : Nat, Nat.repr m = Nat.repr n → m = n := by
  intro m n h
  simp only [Nat.repr, Nat.toDigits] at h
  rw [toDigitsCore_eq_natDigits (m + 1) m [] (by omega),
      toDigitsCore_eq_natDigits (n + 1) n [] (by omega)] at h
  simp only [List.append_nil, List.asString] at h
  exact natDigits_inj m n (by injection h)

theorem toString_nat_inj : ∀ m n : Nat, toString m = toString n → m = n :=
  repr_nat_inj

/-! ### Data model from `producer.go` -/

/-- The parts of `config.CanaryConfig` read by the producer service.
`ProducerLatencyBuckets` (histogram bucket boundaries) is omitted: it only
shapes the histogram's bucketing, never which samples are recorded. -/
structure CanaryConfig where
  Topic : String
  ClientID : String
deriving DecidableEq

/-- `CanaryMessage` as constructed in `newCanaryMessage` (the struct's own
source file is outside `src/`; its three fields are fixed by that
constructor). -/
structure CanaryMessage where
  ProducerID : String
  MessageID : Int
  Timestamp : Int
deriving DecidableEq

/-- Modelled from the spec: `CanaryMessage.Json`, whose defining source file
is not under `src/`.  The spec's wire payload format (§6) is
`\x7b"producerId": "<string>", "messageId": <integer>, "timestamp": <integer-millis>\x7d`
with `producerId` = clientIdentity, `messageId` = sequenceNumber,
`timestamp` = createdAtMillis, and no additional fields. -/
def jsonPayload (pid : String) (mid ts : Int) : String :=
  "\x7b\"producerId\":\"" ++ pid ++ "\",\"messageId\":" ++ toString mid
    ++ ",\"timestamp\":" ++ toString ts ++ "\x7d"

/-- Modelled from the spec: serialization of a `CanaryMessage` to the wire
payload (the method's source file is not under `src/`). -/
def CanaryMessage.Json (cm : CanaryMessage) : String :=
  jsonPayload cm.ProducerID cm.MessageID cm.Timestamp

/-- `ProducerService` (producer.go): the config plus the `index` field,
"index of the next message to send".  The `client` and `producer` handles
are external collaborators, represented by the environment instead. -/
structure ProducerService where
  canaryConfig : CanaryConfig
  index : Int
deriving DecidableEq

/-- `NewProducerService`: the struct literal leaves `index` at Go's zero
value `0`.  (The panic on sync-producer construction failure concerns the
external handle and is not modelled.) -/
def NewProducerService (canaryConfig : CanaryConfig) : ProducerService :=
  { canaryConfig := canaryConfig, index := 0 }

/-- `newCanaryMessage`: pre-increments `ps.index`, reads the clock (passed
in as `nowMillis`, already divided to milliseconds), and builds the
message. -/
def newCanaryMessage (ps : ProducerService) (nowMillis : Int) :
    CanaryMessage × ProducerService :=
  let index := ps.index + 1
  ({ ProducerID := ps.canaryConfig.ClientID, MessageID := index,
     Timestamp := nowMillis },
   { ps with index := index })

/-- A Prometheus label set `\x7bclientid, partition\x7d`, as the pair
(clientid value, partition value). -/
abbrev MetricLabel := String × String

/-- The three instruments of the service, per label: the two counters
(`recordsProduced`, `recordsProducedFailed`) and the latency histogram,
the latter as the chronological list of observed samples. -/
structure Metrics where
  recordsProduced : MetricLabel → Nat
  recordsProducedFailed : MetricLabel → Nat
  recordsProducedLatency : MetricLabel → List Int

/-- `CounterVec.With(labels).Inc()`. -/
def counterInc (c : MetricLabel → Nat) (l : MetricLabel) : MetricLabel → Nat :=
  fun x => if x = l then c x + 1 else c x

/-- `HistogramVec.With(labels).Observe(v)`. -/
def histogramObserve (h : MetricLabel → List Int) (l : MetricLabel)
    (v : Int) : MetricLabel → List Int :=
  fun x => if x = l then h x ++ [v] else h x

/-- One call to `producer.SendMessage`: the `ProducerMessage`'s topic,
partition and encoded value at the moment of the call. -/
structure SendCall where
  topic : String
  partition : Int
  value : String
deriving DecidableEq

/-- The label set built in `Send`'s loop body for partition `i`:
`\x7bclientid: ClientID, partition: strconv.Itoa(i)\x7d`. -/
def pLabel (cfg : CanaryConfig) (i : Nat) : MetricLabel :=
  (cfg.ClientID, toString i)

/-- The external world of one `Send` call, resolved per loop iteration `i`:
the clock reading at message construction, the result of the synchronous
send (`some (partition, offset)` on success, `none` when `SendMessage`
returns an error), and the clock reading taken right after the send
returns. -/
structure Env where
  createMillis : Nat → Int
  sendResult : Nat → Option (Int × Int)
  ackMillis : Nat → Int

/-- Mutable state touched by the service: the service struct itself, the
three metric instruments, and (as observational instrumentation) the trace
of `SendMessage` calls issued so far, in order. -/
structure State where
  ps : ProducerService
  metrics : Metrics
  trace : List SendCall

/-- The body of `Send`'s `for` loop at loop index `i`: build a canary
message, encode it, send it to partition `i`, take the post-send timestamp,
increment `recordsProduced` unconditionally, then either increment
`recordsProducedFailed` (error) or observe
`timestamp - cm.Timestamp` into the latency histogram (success). -/
def sendIter (env : Env) (st : State) (i : Nat) : State :=
  let cmps := newCanaryMessage st.ps (env.createMillis i)
  let cm := cmps.1
  let ps := cmps.2
  let call : SendCall :=
    { topic := st.ps.canaryConfig.Topic, partition := (i : Int),
      value := cm.Json }
  let timestamp := env.ackMillis i
  let labels : MetricLabel := (st.ps.canaryConfig.ClientID, toString i)
  let produced := counterInc st.metrics.recordsProduced labels
  match env.sendResult i with
  | none =>
      { ps := ps,
        metrics :=
          { recordsProduced := produced,
            recordsProducedFailed :=
              counterInc st.metrics.recordsProducedFailed labels,
            recordsProducedLatency := st.metrics.recordsProducedLatency },
        trace := st.trace ++ [call] }
  | some _ =>
      let duration := timestamp - cm.Timestamp
      { ps := ps,
        metrics :=
          { recordsProduced := produced,
            recordsProducedFailed := st.metrics.recordsProducedFailed,
            recordsProducedLatency :=
              histogramObserve st.metrics.recordsProducedLatency labels
                duration },
        trace := st.trace ++ [call] }

/-- Iterating the loop body over the loop indices. -/
def sendLoop (env : Env) : State → List Nat → State
  | st, [] => st
  | st, i :: rest => sendLoop env (sendIter env st i) rest

/-- `ProducerService.Send(numPartitions)`: `for i := 0; i < numPartitions;
i++`, i.e. the loop body at indices `0 .. numPartitions-1` (no iterations
when `numPartitions ≤ 0`). -/
def Send (env : Env) (numPartitions : Int) (st : State) : State :=
  sendLoop env st (List.range numPartitions.toNat)

/-- Outcome of a lifecycle operation as seen by the process: a normal
return carrying the state, or process termination via `os.Exit`. -/
inductive ProcResult where
  | ok : State → ProcResult
  | exited : Nat → ProcResult

/-- `ProducerService.Refresh`: calls `client.RefreshMetadata` (outcome
`refreshResult`, `some msg` when it returns an error) and only logs the
error; it always returns normally and touches no state. -/
def Refresh (refreshResult : Option String) (st : State) : ProcResult :=
  match refreshResult with
  | some _ => ProcResult.ok st
  | none => ProcResult.ok st

/-- `ProducerService.Close`: calls `producer.Close()` (outcome
`closeResult`, `some msg` when it returns an error); on error it logs and
calls `os.Exit(1)`, otherwise it returns normally. -/
def Close (closeResult : Option String) (st : State) : ProcResult :=
  match closeResult with
  | some _ => ProcResult.exited 1
  | none => ProcResult.ok st

/-- Two consecutive calls to `Close`, with the underlying producer's close
outcomes `r₁` and `r₂`; the second call happens only if the first returned
normally. -/
def closeTwice (r₁ r₂ : Option String) (st : State) : ProcResult :=
  match Close r₁ st with
  | ProcResult.ok st' => Close r₂ st'
  | ProcResult.exited c => ProcResult.exited c

/-- Consecutive calls to the message factory `newCanaryMessage`, one per
clock reading in `times`; returns the messages in call order and the final
service state. -/
def factoryRun : ProducerService → List Int → List CanaryMessage × ProducerService
  | ps, [] => ([], ps)
  | ps, t :: ts =>
      let cmps := newCanaryMessage ps t
      let rest := factoryRun cmps.2 ts
      (cmps.1 :: rest.1, rest.2)

/-! ### Characterization of the send loop -/

/-- The `SendMessage` call that iteration `i` of `Send`'s loop issues when
the service's `index` field held `baseIndex` before the whole loop started:
the message carries sequence number `baseIndex + i + 1` and the creation
timestamp of iteration `i`. -/
def callFor (cfg : CanaryConfig) (env : Env) (baseIndex : Int) (i : Nat) :
    SendCall :=
  { topic := cfg.Topic, partition := (i : Int),
    value := jsonPayload cfg.ClientID (baseIndex + (i : Int) + 1)
      (env.createMillis i) }

theorem sendIter_ps (env : Env) (st : State) (i : Nat) :
    (sendIter env st i).ps = { st.ps with index := st.ps.index + 1 } := by
  cases hres : env.sendResult i <;>
    simp [sendIter, newCanaryMessage, hres]

theorem sendIter_trace (env : Env) (st : State) (i : Nat) :
    (sendIter env st i).trace = st.trace ++
      [{ topic := st.ps.canaryConfig.Topic, partition := (i : Int),
         value := jsonPayload st.ps.canaryConfig.ClientID (st.ps.index + 1)
           (env.createMillis i) }] := by
  cases hres : env.sendResult i <;>
    simp [sendIter, newCanaryMessage, hres, CanaryMessage.Json]

theorem sendIter_produced (env : Env) (st : State) (i : Nat) (l : MetricLabel) :
    (sendIter env st i).metrics.recordsProduced l
      = counterInc st.metrics.recordsProduced (pLabel st.ps.canaryConfig i) l := by
  cases hres : env.sendResult i <;>
    simp [sendIter, newCanaryMessage, hres, pLabel]

theorem sendIter_failed (env : Env) (st : State) (i : Nat) (l : MetricLabel) :
    (sendIter env st i).metrics.recordsProducedFailed l
      = if (env.sendResult i).isNone then
          counterInc st.metrics.recordsProducedFailed
            (pLabel st.ps.canaryConfig i) l
        else st.metrics.recordsProducedFailed l := by
  cases hres : env.sendResult i <;>
    simp [sendIter, newCanaryMessage, hres, pLabel]

theorem sendIter_latency (env : Env) (st : State) (i : Nat) (l : MetricLabel) :
    (sendIter env st i).metrics.recordsProducedLatency l
      = if (env.sendResult i).isSome then
          histogramObserve st.metrics.recordsProducedLatency
            (pLabel st.ps.canaryConfig i)
            (env.ackMillis i - env.createMillis i) l
        else st.metrics.recordsProducedLatency l := by
  cases hres : env.sendResult i <;>
    simp [sendIter, newCanaryMessage, hres, pLabel]

theorem sendLoop_append (env : Env) :
    ∀ (xs ys : List Nat) (st : State),
      sendLoop env st (xs ++ ys) = sendLoop env (sendLoop env st xs) ys := by
  intro xs
  induction xs with
  | nil => intro ys st; rfl
  | cons x xs ih => intro ys st; exact ih ys (sendIter env st x)

theorem sendLoop_singleton (env : Env) (st : State) (i : Nat) :
    sendLoop env st [i] = sendIter env st i := rfl

theorem sendLoop_cfg (env : Env) :
    ∀ (is : List Nat) (st : State),
      (sendLoop env st is).ps.canaryConfig = st.ps.canaryConfig := by
  intro is
  induction is with
  | nil => intro st; rfl
  | cons i is ih => intro st; rw [sendLoop, ih, sendIter_ps]

theorem sendLoop_index (env : Env) :
    ∀ (is : List Nat) (st : State),
      (sendLoop env st is).ps.index = st.ps.index + is.length := by
  intro is
  induction is with
  | nil => intro st; simp [sendLoop]
  | cons i is ih =>
    intro st
    rw [sendLoop, ih, sendIter_ps]
    simp
    omega

theorem send_trace (env : Env) (st : State) (n : Nat) :
    (sendLoop env st (List.range n)).trace
      = st.trace ++ (List.range n).map
          (callFor st.ps.canaryConfig env st.ps.index) := by
  induction n with
  | zero => simp [sendLoop]
  | succ n ih =>
    rw [List.range_succ, sendLoop_append, sendLoop_singleton, sendIter_trace,
        ih, sendLoop_cfg, sendLoop_index]
    simp [callFor, List.length_range]

theorem send_produced (env : Env) (st : State) (n : Nat) (l : MetricLabel) :
    (sendLoop env st (List.range n)).metrics.recordsProduced l
      = st.metrics.recordsProduced l
        + (List.range n).countP
            (fun i => decide (pLabel st.ps.canaryConfig i = l)) := by
  induction n with
  | zero => simp [sendLoop]
  | succ n ih =>
    rw [List.range_succ, sendLoop_append, sendLoop_singleton,
        sendIter_produced, sendLoop_cfg, List.countP_append]
    by_cases h : pLabel st.ps.canaryConfig n = l
    · subst h
      simp [counterInc, ih, List.countP_cons]
      omega
    · simp [counterInc, ih, h, Ne.symm h, List.countP_cons]

theorem send_failed (env : Env) (st : State) (n : Nat) (l : MetricLabel) :
    (sendLoop env st (List.range n)).metrics.recordsProducedFailed l
      = st.metrics.recordsProducedFailed l
        + (List.range n).countP
            (fun i => decide (pLabel st.ps.canaryConfig i = l)
              && (env.sendResult i).isNone) := by
  induction n with
  | zero => simp [sendLoop]
  | succ n ih =>
    rw [List.range_succ, sendLoop_append, sendLoop_singleton,
        sendIter_failed, sendLoop_cfg, List.countP_append]
    cases hres : (env.sendResult n).isNone
    · by_cases h : pLabel st.ps.canaryConfig n = l
      · subst h; simp [ih, hres, List.countP_cons]
      · simp [ih, hres, h, List.countP_cons]
    · by_cases h : pLabel st.ps.canaryConfig n = l
      · subst h; simp [counterInc, ih, hres, List.countP_cons]; omega
      · simp [counterInc, ih, hres, h, Ne.symm h, List.countP_cons]

theorem send_latency (env : Env) (st : State) (n : Nat) (l : MetricLabel) :
    (sendLoop env st (List.range n)).metrics.recordsProducedLatency l
      = st.metrics.recordsProducedLatency l
        ++ ((List.range n).filter
            (fun i => decide (pLabel st.ps.canaryConfig i = l)
              && (env.sendResult i).isSome)).map
            (fun i => env.ackMillis i - env.createMillis i) := by
  induction n with
  | zero => simp [sendLoop]
  | succ n ih =>
    rw [List.range_succ, sendLoop_append, sendLoop_singleton,
        sendIter_latency, sendLoop_cfg, List.filter_append]
    cases hres : (env.sendResult n).isSome
    · by_cases h : pLabel st.ps.canaryConfig n = l
      · subst h; simp [ih, hres, List.filter_cons]
      · simp [ih, hres, h, List.filter_cons]
    · by_cases h : pLabel st.ps.canaryConfig n = l
      · subst h; simp [histogramObserve, ih, hres, List.filter_cons]
      · simp [histogramObserve, ih, hres, h, Ne.symm h, List.filter_cons]

/-! ### Per-partition label counting -/

theorem pLabel_inj (cfg : CanaryConfig) {i j : Nat} :
    pLabel cfg i = pLabel cfg j ↔ i = j := by
  constructor
  · intro h
    exact toString_nat_inj i j (congrArg Prod.snd h)
  · intro h; rw [h]

theorem countP_label_self (cfg : CanaryConfig) {n i : Nat} (h : i < n) :
    (List.range n).countP (fun j => decide (pLabel cfg j = pLabel cfg i)) = 1 := by
  have hc : (List.range n).countP (fun j => decide (pLabel cfg j = pLabel cfg i))
      = (List.range n).countP (fun j => j == i) := by
    apply List.countP_congr
    intro x _
    simp [pLabel_inj cfg]
  rw [hc, ← List.count_eq_countP]
  exact List.count_eq_one_of_mem (List.nodup_range n) (List.mem_range.mpr h)

theorem countP_label_zero (cfg : CanaryConfig) {n : Nat} {l : MetricLabel}
    (hl : ∀ j, j < n → pLabel cfg j ≠ l) :
    (List.range n).countP (fun j => decide (pLabel cfg j = l)) = 0 := by
  apply List.countP_eq_zero.mpr
  intro j hj
  simp only [decide_eq_true_eq]
  exact hl j (List.mem_range.mp hj)

theorem countP_label_isNone (cfg : CanaryConfig) (env : Env) {n i : Nat}
    (h : i < n) :
    (List.range n).countP
        (fun j => decide (pLabel cfg j = pLabel cfg i) && (env.sendResult j).isNone)
      = if (env.sendResult i).isNone then 1 else 0 := by
  cases hres : (env.sendResult i).isNone
  · simp only [Bool.false_eq_true, if_false]
    apply List.countP_eq_zero.mpr
    intro j _
    simp only [Bool.and_eq_true, decide_eq_true_eq, pLabel_inj cfg]
    rintro ⟨rfl, hj⟩
    rw [hres] at hj
    exact Bool.false_ne_true hj
  · simp only [if_pos rfl]
    rw [← countP_label_self cfg h]
    apply List.countP_congr
    intro j _
    simp only [Bool.and_eq_true, decide_eq_true_eq, pLabel_inj cfg]
    constructor
    · rintro ⟨hj, _⟩; exact hj
    · rintro rfl; exact ⟨rfl, hres⟩

theorem filter_label_isSome (cfg : CanaryConfig) (env : Env) {n i : Nat}
    (h : i < n) :
    (List.range n).filter
        (fun j => decide (pLabel cfg j = pLabel cfg i) && (env.sendResult j).isSome)
      = if (env.sendResult i).isSome then [i] else [] := by
  cases hres : (env.sendResult i).isSome
  · simp only [Bool.false_eq_true, if_false]
    apply List.filter_eq_nil_iff.mpr
    intro j _
    simp only [Bool.and_eq_true, decide_eq_true_eq, pLabel_inj cfg]
    rintro ⟨rfl, hj⟩
    rw [hres] at hj
    exact Bool.false_ne_true hj
  · simp only [if_pos rfl]
    have hf : (List.range n).filter
          (fun j => decide (pLabel cfg j = pLabel cfg i) && (env.sendResult j).isSome)
        = (List.range n).filter (fun j => j == i) := by
      apply List.filter_congr
      intro j _
      by_cases hj : j = i
      · subst hj; simp [hres]
      · simp [hj, pLabel_inj cfg]
    rw [hf, List.filter_beq,
        List.count_eq_one_of_mem (List.nodup_range n) (List.mem_range.mpr h)]
    rfl

/-! ### The characterization, restated on `Send` -/

theorem Send_trace (env : Env) (st : State) (n : Int) :
    (Send env n st).trace
      = st.trace ++ (List.range n.toNat).map
          (callFor st.ps.canaryConfig env st.ps.index) :=
  send_trace env st n.toNat

theorem Send_produced (env : Env) (st : State) (n : Int) (l : MetricLabel) :
    (Send env n st).metrics.recordsProduced l
      = st.metrics.recordsProduced l
        + (List.range n.toNat).countP
            (fun i => decide (pLabel st.ps.canaryConfig i = l)) :=
  send_produced env st n.toNat l

theorem Send_failed (env : Env) (st : State) (n : Int) (l : MetricLabel) :
    (Send env n st).metrics.recordsProducedFailed l
      = st.metrics.recordsProducedFailed l
        + (List.range n.toNat).countP
            (fun i => decide (pLabel st.ps.canaryConfig i = l)
              && (env.sendResult i).isNone) :=
  send_failed env st n.toNat l

theorem Send_latency (env : Env) (st : State) (n : Int) (l : MetricLabel) :
    (Send env n st).metrics.recordsProducedLatency l
      = st.metrics.recordsProducedLatency l
        ++ ((List.range n.toNat).filter
            (fun i => decide (pLabel st.ps.canaryConfig i = l)
              && (env.sendResult i).isSome)).map
            (fun i => env.ackMillis i - env.createMillis i) :=
  send_latency env st n.toNat l

/-! ### Concrete instances for witnesses -/

/-- A concrete configuration. -/
def exCfg : CanaryConfig := { Topic := "canary-topic", ClientID := "canary-client" }

/-- Fresh metrics: all counters zero, no histogram samples. -/
def exMetrics : Metrics :=
  { recordsProduced := fun _ => 0,
    recordsProducedFailed := fun _ => 0,
    recordsProducedLatency := fun _ => [] }

/-- A freshly constructed service with fresh metrics and no sends yet. -/
def exState : State :=
  { ps := NewProducerService exCfg, metrics := exMetrics, trace := [] }

/-- A broker that acknowledges every send 10 ms after creation. -/
def exEnvAllOk : Env :=
  { createMillis := fun i => 100 * (i : Int),
    sendResult := fun _ => some (0, 5),
    ackMillis := fun i => 100 * (i : Int) + 10 }

/-- A broker that fails exactly partition 1 and acknowledges the rest. -/
def exEnvFailOne : Env :=
  { createMillis := fun _ => 100,
    sendResult := fun i => if i = 1 then none else some (0, 5),
    ackMillis := fun _ => 110 }

/-- A skewed clock: the acknowledgement reading lies before the creation
reading, so the latency sample is negative. -/
def exEnvSkew : Env :=
  { createMillis := fun _ => 100,
    sendResult := fun _ => some (0, 3),
    ackMillis := fun _ => 40 }

/-! ### Claims -/

theorem factoryRun_ids (times : List Int) :
    ∀ ps : ProducerService,
      ((factoryRun ps times).1).map CanaryMessage.MessageID
        = (List.range times.length).map
            (fun j : Nat => ps.index + (j : Int) + 1) := by
  induction times with
  | nil => intro ps; simp [factoryRun]
  | cons t ts ih =>
    intro ps
    simp only [factoryRun, List.map_cons, newCanaryMessage, List.length_cons,
      ih, List.range_succ_eq_map, List.map_map]
    congr 1
    · simp
    · apply List.map_congr_left
      intro a _
      simp [Function.comp]
      ring

/-- C2: sequence numbers issued by one `ProducerService` instance are the
consecutive integers `1, 2, …`: starting from a freshly constructed
service, the `k`-th call to the message factory `newCanaryMessage` yields
`MessageID = k` (pre-increment from the zero-initialised `index`), whatever
clock readings the calls observe — the factory never looks at a
partition. -/
theorem c2_sequence_numbers (cfg : CanaryConfig) (times : List Int) :
    ((factoryRun (NewProducerService cfg) times).1).map CanaryMessage.MessageID
      = (List.range times.length).map (fun j : Nat => (j : Int) + 1) := by
  rw [factoryRun_ids]
  apply List.map_congr_left
  intro a _
  simp [NewProducerService]

/-- C6 counterexample: after a first `Close` whose underlying
`producer.Close()` succeeded, a second `Close` whose underlying close
returns an error does NOT return normally — it reaches `os.Exit(1)`
(modelled as `ProcResult.exited 1`), terminating the process.  This
refutes the claim that the second call "does not terminate the
process". -/
theorem c6_close_counterexample :
    closeTwice none (some "kafka: producer already closed") exState
      = ProcResult.exited 1 := rfl

/-- C6 (amended): `Close` has no idempotence guard.  After a successful
first close, the behaviour of a second `Close` is decided entirely by the
underlying producer's close result: when it returns an error the process
is terminated with exit status 1 (`os.Exit(1)` after logging); only when
it returns no error does the second call complete normally as a no-op. -/
theorem c6_close_second_call (st : State) (r : Option String) :
    closeTwice none r st
      = (if r.isSome then ProcResult.exited 1 else ProcResult.ok st) := by
  cases r <;> rfl

/-- C7: `Send` with `numPartitions = 0` is a complete no-op: the loop body
never runs, so the resulting state — service struct (hence the sequence
counter `index`), all three metric instruments, and the trace of send
attempts — is exactly the initial state. -/
theorem c7_send_zero_noop (env : Env) (st : State) : Send env 0 st = st := rfl

/-- C9: `Refresh` returns normally for every outcome of the underlying
`client.RefreshMetadata` call (`none` = success, `some msg` = error): the
error is only logged, never propagated, the process never exits, and the
state — sequence counter and all metrics — is returned unchanged. -/
theorem c9_refresh_never_fails (r : Option String) (st : State) :
    Refresh r st = ProcResult.ok st := by
  cases r <;> rfl

/-- C10: for every negative `numPartitions`, the loop guard
`i < numPartitions` fails immediately, so `Send` performs zero send
attempts and leaves the whole state (sequence counter, all three metric
instruments, trace) unchanged — exactly like `numPartitions = 0`. -/
theorem c10_send_negative_noop (env : Env) (st : State) (n : Int)
    (hneg : n < 0) : Send env n st = st := by
  have h0 : n.toNat = 0 := Int.toNat_eq_zero.mpr (le_of_lt hneg)
  show sendLoop env st (List.range n.toNat) = st
  rw [h0]
  rfl

/-- C10 witness: `Send` with `numPartitions = -1` on the fresh state. -/
theorem c10_send_negative_noop_witness :
    (-1 : Int) < 0 ∧ Send exEnvAllOk (-1) exState = exState :=
  ⟨by decide, c10_send_negative_noop exEnvAllOk exState (-1) (by decide)⟩

/-- C1: for every `numPartitions ≥ 0`, `Send` issues exactly
`numPartitions` send attempts — the trace gains exactly `numPartitions`
entries whose partitions are `0, 1, …, numPartitions-1` in this (strictly
increasing) order — and the `recordsProduced` counter labelled
`(ClientID, strconv.Itoa(i))` grows by exactly one for each attempted
partition `i`, and not at all at any label `l` no attempt carries.  The
environment `env` (hence every send's success or failure) is arbitrary:
the counter tracks attempts, not confirmed deliveries. -/
theorem c1_attempts_and_produced (env : Env) (st : State) (n : Int) (i : Nat)
    (l : MetricLabel) (hn : 0 ≤ n) (hi : i < n.toNat)
    (hl : ∀ j, j < n.toNat → pLabel st.ps.canaryConfig j ≠ l) :
    (Send env n st).trace.map SendCall.partition
      = st.trace.map SendCall.partition
        ++ (List.range n.toNat).map (fun j : Nat => (j : Int))
  ∧ (Send env n st).trace.length = st.trace.length + n.toNat
  ∧ (Send env n st).metrics.recordsProduced (pLabel st.ps.canaryConfig i)
      = st.metrics.recordsProduced (pLabel st.ps.canaryConfig i) + 1
  ∧ (Send env n st).metrics.recordsProduced l
      = st.metrics.recordsProduced l := by
  refine ⟨?_, ?_, ?_, ?_⟩
  · rw [Send_trace]
    simp [callFor]
  · rw [Send_trace]
    simp
  · rw [Send_produced, countP_label_self st.ps.canaryConfig hi]
  · rw [Send_produced, countP_label_zero st.ps.canaryConfig hl]
    omega

/-- C1 witness: 3 partitions, all sends succeed; attempt label
`partition 1` gains one count; the untouched label `("canary-client","9")`
stays at zero. -/
theorem c1_attempts_and_produced_witness :
    (0 : Int) ≤ 3 ∧ 1 < (3 : Int).toNat
  ∧ (∀ j, j < (3 : Int).toNat
      → pLabel exState.ps.canaryConfig j ≠ ("canary-client", "9"))
  ∧ ((Send exEnvAllOk 3 exState).trace.map SendCall.partition
      = exState.trace.map SendCall.partition
        ++ (List.range (3 : Int).toNat).map (fun j : Nat => (j : Int))
    ∧ (Send exEnvAllOk 3 exState).trace.length
        = exState.trace.length + (3 : Int).toNat
    ∧ (Send exEnvAllOk 3 exState).metrics.recordsProduced
          (pLabel exState.ps.canaryConfig 1)
        = exState.metrics.recordsProduced (pLabel exState.ps.canaryConfig 1) + 1
    ∧ (Send exEnvAllOk 3 exState).metrics.recordsProduced ("canary-client", "9")
        = exState.metrics.recordsProduced ("canary-client", "9")) :=
  ⟨by decide, by decide, by decide,
   c1_attempts_and_produced exEnvAllOk exState 3 1 ("canary-client", "9")
     (by decide) (by decide) (by decide)⟩

/-- C3: within one `Send`, for each attempted partition `i` the
`recordsProducedFailed` counter at `(ClientID, i)` grows by one exactly
when the send for partition `i` returned an error, and the latency
histogram at `(ClientID, i)` receives exactly one sample —
`ackMillis − createMillis` of that iteration — exactly when the send
succeeded; on failure no latency sample is recorded. -/
theorem c3_failed_iff_error (env : Env) (st : State) (n : Int) (i : Nat)
    (hi : i < n.toNat) :
    (Send env n st).metrics.recordsProducedFailed (pLabel st.ps.canaryConfig i)
      = st.metrics.recordsProducedFailed (pLabel st.ps.canaryConfig i)
        + (if (env.sendResult i).isNone then 1 else 0)
  ∧ (Send env n st).metrics.recordsProducedLatency (pLabel st.ps.canaryConfig i)
      = st.metrics.recordsProducedLatency (pLabel st.ps.canaryConfig i)
        ++ (if (env.sendResult i).isSome
            then [env.ackMillis i - env.createMillis i] else []) := by
  constructor
  · rw [Send_failed, countP_label_isNone st.ps.canaryConfig env hi]
  · rw [Send_latency, filter_label_isSome st.ps.canaryConfig env hi]
    cases hres : (env.sendResult i).isSome <;> simp [hres]

/-- C3 witness: 2 partitions, partition 1 fails: its failure counter gains
one and its histogram no sample. -/
theorem c3_failed_iff_error_witness :
    1 < (2 : Int).toNat
  ∧ ((Send exEnvFailOne 2 exState).metrics.recordsProducedFailed
        (pLabel exState.ps.canaryConfig 1)
      = exState.metrics.recordsProducedFailed (pLabel exState.ps.canaryConfig 1)
        + (if (exEnvFailOne.sendResult 1).isNone then 1 else 0)
    ∧ (Send exEnvFailOne 2 exState).metrics.recordsProducedLatency
          (pLabel exState.ps.canaryConfig 1)
        = exState.metrics.recordsProducedLatency (pLabel exState.ps.canaryConfig 1)
          ++ (if (exEnvFailOne.sendResult 1).isSome
              then [exEnvFailOne.ackMillis 1 - exEnvFailOne.createMillis 1]
              else [])) :=
  ⟨by decide, c3_failed_iff_error exEnvFailOne exState 2 1 (by decide)⟩

/-- C4: a send failure on partition `k` never suppresses the later
attempts: whenever the environment fails partition `k` (and whatever it
does elsewhere), `Send` still records exactly `numPartitions` attempts, at
partitions `0 … numPartitions-1` in order, and still increments
`recordsProduced` for every partition `i` below `numPartitions`; `Send`
returns normally (it is a total function into `State`, with no error
result to propagate). -/
theorem c4_failure_isolation (env : Env) (st : State) (n : Int) (k i : Nat)
    (hk : k < n.toNat) (hfail : env.sendResult k = none) (hi : i < n.toNat) :
    (Send env n st).trace.length = st.trace.length + n.toNat
  ∧ (Send env n st).trace.map SendCall.partition
      = st.trace.map SendCall.partition
        ++ (List.range n.toNat).map (fun j : Nat => (j : Int))
  ∧ (Send env n st).metrics.recordsProduced (pLabel st.ps.canaryConfig i)
      = st.metrics.recordsProduced (pLabel st.ps.canaryConfig i) + 1 := by
  refine ⟨?_, ?_, ?_⟩
  · rw [Send_trace]
    simp
  · rw [Send_trace]
    simp [callFor]
  · rw [Send_produced, countP_label_self st.ps.canaryConfig hi]

/-- C4 witness: 3 partitions, partition 1 fails, yet partition 2 is still
attempted and counted. -/
theorem c4_failure_isolation_witness :
    1 < (3 : Int).toNat ∧ exEnvFailOne.sendResult 1 = none
  ∧ 2 < (3 : Int).toNat
  ∧ ((Send exEnvFailOne 3 exState).trace.length
        = exState.trace.length + (3 : Int).toNat
    ∧ (Send exEnvFailOne 3 exState).trace.map SendCall.partition
        = exState.trace.map SendCall.partition
          ++ (List.range (3 : Int).toNat).map (fun j : Nat => (j : Int))
    ∧ (Send exEnvFailOne 3 exState).metrics.recordsProduced
          (pLabel exState.ps.canaryConfig 2)
        = exState.metrics.recordsProduced (pLabel exState.ps.canaryConfig 2) + 1) :=
  ⟨by decide, by decide, by decide,
   c4_failure_isolation exEnvFailOne exState 3 1 2 (by decide) (by decide)
     (by decide)⟩

/-- C5: for every successful send, the single recorded latency sample is
exactly the acknowledgement reading taken right after `SendMessage`
returned minus the message's `createdAtMillis` captured at construction
(before the send returned); the value is recorded as-is — the equation
holds for every environment, including those where the difference is
negative (clock skew), with no clamping or dropping. -/
theorem c5_latency_sample (env : Env) (st : State) (n : Int) (i : Nat)
    (hi : i < n.toNat) (hs : (env.sendResult i).isSome = true) :
    (Send env n st).metrics.recordsProducedLatency (pLabel st.ps.canaryConfig i)
      = st.metrics.recordsProducedLatency (pLabel st.ps.canaryConfig i)
        ++ [env.ackMillis i - env.createMillis i] := by
  rw [Send_latency, filter_label_isSome st.ps.canaryConfig env hi, hs]
  simp

/-- C5 witness: a skewed clock (ack reading 40 ms, creation reading
100 ms): the negative sample −60 is recorded as-is. -/
theorem c5_latency_sample_witness :
    0 < (1 : Int).toNat ∧ (exEnvSkew.sendResult 0).isSome = true
  ∧ (Send exEnvSkew 1 exState).metrics.recordsProducedLatency
        (pLabel exState.ps.canaryConfig 0)
      = exState.metrics.recordsProducedLatency (pLabel exState.ps.canaryConfig 0)
        ++ [exEnvSkew.ackMillis 0 - exEnvSkew.createMillis 0] :=
  ⟨by decide, by decide,
   c5_latency_sample exEnvSkew exState 1 0 (by decide) (by decide)⟩

/-- C8: the wire payload of the `i`-th message sent by one `Send` call is
the JSON object with exactly the three fields
`producerId` (= the configured `ClientID`), `messageId` (= the message's
sequence number, here the pre-`Send` `index` plus `i + 1`) and
`timestamp` (= the `createdAtMillis` reading of that iteration), as fixed
by `jsonPayload`. -/
theorem c8_wire_payload (env : Env) (st : State) (n : Int) (i : Nat)
    (hi : i < n.toNat) :
    (Send env n st).trace[st.trace.length + i]?
      = some { topic := st.ps.canaryConfig.Topic, partition := (i : Int),
               value := jsonPayload st.ps.canaryConfig.ClientID
                 (st.ps.index + (i : Int) + 1) (env.createMillis i) } := by
  rw [Send_trace, List.getElem?_append_right (by omega),
      show st.trace.length + i - st.trace.length = i by omega,
      List.getElem?_map, List.getElem?_range hi]
  rfl

/-- C8 witness: the second message of `Send` on the fresh service carries
`messageId = 2` and its creation timestamp. -/
theorem c8_wire_payload_witness :
    1 < (2 : Int).toNat
  ∧ (Send exEnvAllOk 2 exState).trace[exState.trace.length + 1]?
      = some { topic := exState.ps.canaryConfig.Topic, partition := ((1 : Nat) : Int),
               value := jsonPayload exState.ps.canaryConfig.ClientID
                 (exState.ps.index + ((1 : Nat) : Int) + 1)
                 (exEnvAllOk.createMillis 1) } :=
  ⟨by decide, c8_wire_payload exEnvAllOk exState 2 1 (by decide)⟩

end Canary
